import Mathlib

/-!
# Verification of the Data Consumption Tool core logic

Shallow embedding of `src/dashboard_app.py`: the session store, the column
classifier (`power_cols` / `supply_cols` / `return_cols`), the chart data
preparer (`prepare_data`) and the upload handler (`process_file_upload`,
`handle_file_upload`), followed by theorems about them.

Cells of the table are modelled as the textual values produced by CSV
ingestion; `pd.to_datetime(..., errors='coerce')` and
`pd.to_numeric(..., errors='coerce')` are modelled as total cell
transformations producing `none` on unparseable input, exactly as the
`coerce` mode does.
-/

set_option autoImplicit false

namespace DataTool

/-- A single table cell.  After `pd.read_csv` every cell is textual
(`Cell.str`); `prepare_data` overwrites whole columns with datetime cells
(`Cell.time`, `none` modelling `NaT`) or numeric cells (`Cell.num`, `none`
modelling `NaN`). -/
inductive Cell where
  | str : String → Cell
  | time : Option (Nat × Nat × Nat × Nat × Nat × Nat) → Cell
  | num : Option Rat → Cell
deriving DecidableEq

/-- A parsed calendar timestamp `(year, month, day, hour, minute, second)`. -/
abbrev Timestamp := Nat × Nat × Nat × Nat × Nat × Nat

/-- Gregorian leap-year test, as used by Python's calendar validation. -/
def isLeapYear (y : Nat) : Bool :=
  (y % 4 == 0 && y % 100 != 0) || (y % 400 == 0)

/-- Number of days of month `m` in year `y`. -/
def daysInMonth (y m : Nat) : Nat :=
  if m == 2 then (if isLeapYear y then 29 else 28)
  else if m == 4 || m == 6 || m == 9 || m == 11 then 30
  else 31

/-- Split a character sequence at every occurrence of `sep` (the
splitting all string-parsing below relies on); `"a/b"` gives
`["a", "b"]`, empty pieces are kept. -/
def splitOnChar (sep : Char) : List Char → List (List Char)
  | [] => [[]]
  | c :: rest =>
    if c = sep then [] :: splitOnChar sep rest
    else
      match splitOnChar sep rest with
      | [] => [[c]]
      | h :: t => (c :: h) :: t

/-- Value of a nonempty all-digit character sequence, `none` otherwise. -/
def digitsVal (cs : List Char) : Option Nat :=
  if !cs.isEmpty && cs.all Char.isDigit then
    some (cs.foldl (fun a c => 10 * a + (c.toNat - 48)) 0)
  else none

/-- Model of parsing one value with the explicit pattern
`%m/%d/%Y %H:%M:%S` (as `pd.to_datetime(..., format='%m/%d/%Y %H:%M:%S')`
does per element): month-first date, slash separated, then a colon
separated clock time, with calendar validation; failures yield `none`
(the `errors='coerce'` null marker `NaT`). -/
def parseTimestamp (s : String) : Option Timestamp :=
  match splitOnChar ' ' s.data with
  | [datePart, timePart] =>
    match splitOnChar '/' datePart, splitOnChar ':' timePart with
    | [ms, ds, ys], [hs, mis, ss] =>
      match digitsVal ms, digitsVal ds, digitsVal ys,
            digitsVal hs, digitsVal mis, digitsVal ss with
      | some m, some d, some y, some h, some mi, some sec =>
        if 1 ≤ m ∧ m ≤ 12 ∧ 1 ≤ d ∧ d ≤ daysInMonth y m ∧
           h ≤ 23 ∧ mi ≤ 59 ∧ sec ≤ 59 then
          some (y, m, d, h, mi, sec)
        else none
      | _, _, _, _, _, _ => none
    | _, _ => none
  | _ => none

/-- Model of pandas best-effort generic parsing
(`pd.to_datetime(..., format=None, errors='coerce')`), restricted to the
month-first `MM/DD/YYYY HH:MM:SS` shape that this dashboard synthesizes
(pandas parses that shape month-first by default, agreeing with
`parseTimestamp`); anything unparseable yields `none`. -/
def parseTimestampGeneric (s : String) : Option Timestamp :=
  parseTimestamp s

/-- Unsigned decimal literal over characters: integer part with optional
fractional part. -/
def parseNumUnsigned (cs : List Char) : Option Rat :=
  match splitOnChar '.' cs with
  | [ip] => (digitsVal ip).map (fun n => (n : Rat))
  | [ip, fp] =>
    match digitsVal ip, digitsVal fp with
    | some i, some f => some ((i : Rat) + (f : Rat) / ((10 : Rat) ^ fp.length))
    | _, _ => none
  | _ => none

/-- Model of `pd.to_numeric(..., errors='coerce')` on one textual value,
covering plain decimal literals (optional sign, integer part, optional
fractional part); anything else coerces to `none` (`NaN`). -/
def parseNum (s : String) : Option Rat :=
  match s.data with
  | '-' :: rest => (parseNumUnsigned rest).map (fun q => -q)
  | '+' :: rest => parseNumUnsigned rest
  | cs => parseNumUnsigned cs

/-- `pd.to_numeric(..., errors='coerce')` applied to one cell: textual
cells are parsed, numeric cells pass through, anything else coerces to the
null marker. -/
def toNumericCell : Cell → Cell
  | .str s => .num (parseNum s)
  | .num v => .num v
  | .time _ => .num none

/-- The textual content of a cell, used when the code concatenates the
`Date` and `Time` columns with `+`; on this code path the cells are always
textual (fresh from `pd.read_csv`). -/
def cellStr : Cell → String
  | .str s => s
  | .time _ => ""
  | .num _ => ""

/-- `pd.to_datetime(..., format='%m/%d/%Y %H:%M:%S', errors='coerce')`
applied to one cell of the existing `Date/Time` column; already-converted
datetime cells pass through. -/
def cellToDatetimeStrict : Cell → Option Timestamp
  | .str s => parseTimestamp s
  | .time t => t
  | .num _ => none

/-- Model of a pandas `DataFrame`: the ordered list of named columns, each
holding its cells in row order (as produced by `pd.read_csv`, all columns
have the same length). -/
structure DataFrame where
  cols : List (String × List Cell)
deriving DecidableEq

namespace DataFrame

/-- Number of rows, `len(df)`: the length of the (first) column. -/
def nrows (df : DataFrame) : Nat :=
  ((df.cols.head?).map (fun p => p.2.length)).getD 0

/-- `df.empty`: true when there are no columns or no rows. -/
def isEmptyDf (df : DataFrame) : Bool :=
  df.cols.isEmpty || nrows df == 0

/-- The cells of column `c` (`df[c]`), `none` when the column is absent. -/
def getCol (df : DataFrame) (c : String) : Option (List Cell) :=
  (df.cols.find? (fun p => p.1 == c)).map Prod.snd

/-- The cells of column `c`, defaulting to the empty column. -/
def getColD (df : DataFrame) (c : String) : List Cell :=
  (df.getCol c).getD []

/-- `c in df.columns`. -/
def hasCol (df : DataFrame) (c : String) : Bool :=
  (df.getCol c).isSome

/-- First column name, `df.columns[0]` (the guard in `prepare_data`
ensures columns exist whenever this is read). -/
def firstColName (df : DataFrame) : String :=
  ((df.cols.head?).map Prod.fst).getD ""

/-- `df[c] = cs`: overwrite the cells of the first column named `c`, or
append a new column at the end when `c` is absent, as pandas column
assignment does. -/
def setColAux (c : String) (cs : List Cell) : List (String × List Cell) → List (String × List Cell)
  | [] => [(c, cs)]
  | (n, v) :: rest => if n = c then (n, cs) :: rest else (n, v) :: setColAux c cs rest

/-- `df[c] = cs` at the frame level. -/
def setCol (df : DataFrame) (c : String) (cs : List Cell) : DataFrame :=
  ⟨setColAux c cs df.cols⟩

@[simp] theorem getCol_nil (c : String) : getCol ⟨[]⟩ c = none := rfl

theorem getCol_cons (n : String) (v : List Cell) (rest : List (String × List Cell)) (c : String) :
    getCol ⟨(n, v) :: rest⟩ c = if n = c then some v else getCol ⟨rest⟩ c := by
  by_cases h : n = c
  · rw [getCol, List.find?_cons_of_pos _ (by simp [h]), if_pos h]
    rfl
  · rw [getCol, List.find?_cons_of_neg _ (by simp [h]), if_neg h]
    rfl

theorem getCol_setCol_self (df : DataFrame) (c : String) (cs : List Cell) :
    getCol (setCol df c cs) c = some cs := by
  obtain ⟨l⟩ := df
  induction l with
  | nil => rw [setCol, setColAux, getCol_cons, if_pos rfl]
  | cons p rest ih =>
    obtain ⟨n, v⟩ := p
    by_cases h : n = c
    · rw [setCol, setColAux, if_pos h, getCol_cons, if_pos h]
    · rw [setCol, setColAux, if_neg h, getCol_cons, if_neg h]
      exact ih

theorem getCol_setCol_ne (df : DataFrame) (c c2 : String) (cs : List Cell) (h : c2 ≠ c) :
    getCol (setCol df c cs) c2 = getCol df c2 := by
  obtain ⟨l⟩ := df
  induction l with
  | nil =>
    rw [setCol, setColAux, getCol_cons, if_neg (fun hc => h hc.symm)]
  | cons p rest ih =>
    obtain ⟨n, v⟩ := p
    by_cases hn : n = c
    · have hn2 : ¬ n = c2 := by
        intro hx
        exact h (hx ▸ hn)
      rw [setCol, setColAux, if_pos hn, getCol_cons, if_neg hn2, getCol_cons, if_neg hn2]
    · by_cases hn2 : n = c2
      · rw [setCol, setColAux, if_neg hn, getCol_cons, if_pos hn2, getCol_cons, if_pos hn2]
      · rw [setCol, setColAux, if_neg hn, getCol_cons, if_neg hn2, getCol_cons, if_neg hn2]
        exact ih

theorem setCol_cols_ne_nil (df : DataFrame) (c : String) (cs : List Cell) :
    (setCol df c cs).cols ≠ [] := by
  obtain ⟨l⟩ := df
  cases l with
  | nil => simp [setCol, setColAux]
  | cons p rest =>
    obtain ⟨n, v⟩ := p
    by_cases h : n = c <;> simp [setCol, setColAux, h]

theorem hasCol_firstColName (df : DataFrame) (h : df.cols ≠ []) :
    hasCol df (firstColName df) = true := by
  obtain ⟨l⟩ := df
  cases l with
  | nil => exact absurd rfl h
  | cons p rest =>
    obtain ⟨n, v⟩ := p
    simp [hasCol, firstColName, getCol_cons]

end DataFrame

/-- Maximum number of data points to display in graphs (`MAX_POINTS`). -/
def MAX_POINTS : Nat := 1000

/-- Auxiliary counter-based traversal behind `takeEvery`: keep the current
element when the countdown hits `0` (then restart at `n - 1`), otherwise
skip it. -/
def takeEveryAux {α : Type} (n : Nat) : Nat → List α → List α
  | _, [] => []
  | 0, a :: as => a :: takeEveryAux n (n - 1) as
  | Nat.succ k, _ :: as => takeEveryAux n k as

/-- Python slicing `l[::n]` for a positive step `n`: the elements at
indices `0, n, 2n, ...`. -/
def takeEvery {α : Type} (n : Nat) (l : List α) : List α :=
  takeEveryAux n 0 l

/-- `df.iloc[::n, :]`: stride-`n` row subsampling applied to every column. -/
def downsampleDf (df : DataFrame) (n : Nat) : DataFrame :=
  ⟨df.cols.map (fun p => (p.1, takeEvery n p.2))⟩

/-- Contiguous-sublist test: does `needle` occur inside the second list?
(Python's substring operator `in` over the character sequences.) -/
def substrTest (needle : List Char) : List Char → Bool
  | [] => needle.isEmpty
  | a :: as => needle.isPrefixOf (a :: as) || substrTest needle as

/-- Case-insensitive substring test `pat in c.lower()` (the patterns the
code uses are lowercase literals; column names are ASCII, where
`Char.toLower` agrees with Python's `str.lower`). -/
def lowerContains (c pat : String) : Bool :=
  substrTest pat.data (c.data.map Char.toLower)

/-- Columns detected as chiller power:
`'chiller' in col.lower() and 'power' in col.lower()`. -/
def power_cols (cols : List String) : List String :=
  cols.filter (fun c => lowerContains c "chiller" && lowerContains c "power")

/-- Columns detected as supply temperature:
`('supply' in col.lower() or 'chws' in col.lower()) and ('temp' in col.lower() or 't' in col.lower())`. -/
def supply_cols (cols : List String) : List String :=
  cols.filter (fun c =>
    (lowerContains c "supply" || lowerContains c "chws") &&
    (lowerContains c "temp" || lowerContains c "t"))

/-- Columns detected as return temperature:
`('return' in col.lower() or 'chwr' in col.lower() or 'ret' in col.lower()) and ('temp' in col.lower() or 't' in col.lower())`. -/
def return_cols (cols : List String) : List String :=
  cols.filter (fun c =>
    (lowerContains c "return" || lowerContains c "chwr" || lowerContains c "ret") &&
    (lowerContains c "temp" || lowerContains c "t"))

/-- The x-axis column chosen by `prepare_data`: the literal `Date/Time`
column if present, else the synthesized name `Date/Time` when both `Date`
and `Time` exist, else the first column. -/
def xcolOf (d : DataFrame) : String :=
  if d.hasCol "Date/Time" then "Date/Time"
  else if d.hasCol "Date" && d.hasCol "Time" then "Date/Time"
  else d.firstColName

/-- The synthesized datetime column
`pd.to_datetime(df['Date'] + ' ' + df['Time'], format=None, errors='coerce')`:
row-wise concatenation with a single space, then generic parsing. -/
def synthCol (d : DataFrame) : List Cell :=
  List.zipWith (fun a b => Cell.time (parseTimestampGeneric (cellStr a ++ " " ++ cellStr b)))
    (d.getColD "Date") (d.getColD "Time")

/-- The datetime conversion step of `prepare_data` (lines 133 to 136):
when the chosen x-axis is `Date/Time`, assign `df['Date/Time']` either the
strictly parsed existing column or the generically parsed synthesized
concatenation; otherwise leave the frame untouched. -/
def convertX (d : DataFrame) : DataFrame :=
  if xcolOf d = "Date/Time" then
    if d.hasCol "Date/Time" then
      d.setCol "Date/Time" ((d.getColD "Date/Time").map (fun cl => Cell.time (cellToDatetimeStrict cl)))
    else
      d.setCol "Date/Time" (synthCol d)
  else d

/-- One numeric conversion
`df[col] = pd.to_numeric(df.get(col, pd.Series()), errors='coerce')`:
a present column is coerced cell-wise; an absent one becomes a fresh
all-null column (assigning the coerced empty series). -/
def setNumCol (d : DataFrame) (c : String) : DataFrame :=
  match d.getCol c with
  | some cs => d.setCol c (cs.map toNumericCell)
  | none => d.setCol c (List.replicate d.nrows (Cell.num none))

/-- The numeric conversion loop `for col in selected_cols: ...`. -/
def convertNums (d : DataFrame) (sel : List String) : DataFrame :=
  sel.foldl setNumCol d

/-- `prepare_data(selected_cols)` of `dashboard_app.py`, with the global
`uploaded_data_store` made explicit: the input store is the current
dictionary content (`none` when the `data` key is absent) and the second
component of the result is the store as left behind by the call — the
code mutates the stored frame in place unless the `> MAX_POINTS` branch
made a copy. -/
def prepare_data (store : Option DataFrame) (sel : List String) :
    Option (DataFrame × String) × Option DataFrame :=
  match store with
  | none => (none, none)
  | some df =>
    if df.isEmptyDf then (none, some df)
    else if df.nrows > MAX_POINTS then
      (some (convertNums (convertX (downsampleDf df (df.nrows / MAX_POINTS))) sel,
             xcolOf (downsampleDf df (df.nrows / MAX_POINTS))),
       some df)
    else
      (some (convertNums (convertX df) sel, xcolOf df),
       some (convertNums (convertX df) sel))

/-- Decoded form of the `contents` string handed to
`process_file_upload`.  `b64Ok` records whether `contents.split(',')`
yields the two data-URI parts and `base64.b64decode` succeeds — these two
steps run before the `try` block, so their failure raises out of the
handler.  `parsed` records the outcome of `decoded.decode('utf-8')`
followed by `pd.read_csv` (both inside the `try`): `.error e` carries
`str(e)` of the raised exception, `.ok df` the parsed table. -/
structure Payload where
  b64Ok : Bool
  parsed : Except String DataFrame

/-- The message element returned by the upload callback, one constructor
per distinct `html` return of the source:
`cleared` = "Dataset cleared. Please upload a new file.",
`rejectedFormat` = "Unsupported file format. Please upload a valid CSV file.",
`parseError e` = "There was an error processing the file." followed by `str(e)`,
`success ...` = the success report with row/column counts and the three
detected column lists, `priorStatus ...` = "Previously uploaded file is
still available." with counts, `noFileYet` = "No file uploaded yet.". -/
inductive UploadMsg where
  | cleared
  | rejectedFormat
  | parseError (err : String)
  | success (filename : String) (rowCount colCount : Nat)
      (powerDetected supplyDetected returnDetected : List String)
  | priorStatus (rowCount colCount : Nat)
  | noFileYet
deriving DecidableEq

/-- Result of one callback invocation: a returned message, or an
exception propagating out of the handler. -/
inductive UploadOutcome where
  | ok (m : UploadMsg)
  | raised
deriving DecidableEq

/-- The column names of a frame, `df.columns`. -/
def colNames (df : DataFrame) : List String :=
  df.cols.map Prod.fst

/-- Python's `s.endswith(pat)`. -/
def strEndsWith (s pat : String) : Bool :=
  pat.data.reverse.isPrefixOf s.data.reverse

/-- `process_file_upload(contents, filename)` with the global store made
explicit; returns the callback outcome and the store left behind. -/
def process_file_upload (contents : Option Payload) (filename : String)
    (store : Option DataFrame) : UploadOutcome × Option DataFrame :=
  match contents with
  | some p =>
    if p.b64Ok then
      if ¬ strEndsWith filename ".csv" then (.ok .rejectedFormat, store)
      else
        match p.parsed with
        | .error e => (.ok (.parseError e), store)
        | .ok df =>
          (.ok (.success filename df.nrows df.cols.length
                  (power_cols (colNames df)) (supply_cols (colNames df))
                  (return_cols (colNames df))),
           some df)
    else (.raised, store)
  | none =>
    match store with
    | some df => (.ok (.priorStatus df.nrows df.cols.length), store)
    | none => (.ok .noFileYet, store)

/-- `handle_file_upload`: the reset button clears the store and reports,
otherwise the upload is processed. -/
def handle_file_upload (resetClicked : Bool) (contents : Option Payload)
    (filename : String) (store : Option DataFrame) :
    UploadOutcome × Option DataFrame :=
  if resetClicked then (.ok .cleared, none)
  else process_file_upload contents filename store

open DataFrame

/-- Textual-cell test: `true` exactly for cells of string content. -/
def cellIsStr : Cell → Bool
  | .str _ => true
  | _ => false

/-- One element of the pandas concatenation `df['Date'] + ' ' + df['Time']`:
a string cell contributes its text, but a cell of numeric or datetime
dtype (as `pd.read_csv` dtype inference can produce, e.g. an all-digit
`Time` column read as int64) makes the `+` raise `TypeError`. -/
def cellStrE : Cell → Except String String
  | .str s => .ok s
  | _ => .error "TypeError"

/-- Exception-aware row-wise synthesis of the `Date/Time` values: the
concatenation raises as soon as a `Date` or `Time` cell is not textual,
otherwise each joined value is parsed generically. -/
def synthCellsE : List Cell → List Cell → Except String (List Cell)
  | [], _ => .ok []
  | _ :: _, [] => .ok []
  | a :: as, b :: bs =>
    match cellStrE a, cellStrE b with
    | .ok s1, .ok s2 =>
      match synthCellsE as bs with
      | .ok rest => .ok (Cell.time (parseTimestampGeneric (s1 ++ " " ++ s2)) :: rest)
      | .error e => .error e
    | .error e, _ => .error e
    | .ok _, .error e => .error e

/-- Exception-aware datetime step, refining `convertX`: identical control
flow, but in the synthesized branch the `TypeError` of the concatenation
propagates instead of being coerced away. -/
def convertXE (d : DataFrame) : Except String DataFrame :=
  if xcolOf d = "Date/Time" then
    if d.hasCol "Date/Time" then
      Except.ok (d.setCol "Date/Time"
        ((d.getColD "Date/Time").map (fun cl => Cell.time (cellToDatetimeStrict cl))))
    else
      match synthCellsE (d.getColD "Date") (d.getColD "Time") with
      | .ok cs => Except.ok (d.setCol "Date/Time" cs)
      | .error e => Except.error e
  else Except.ok d

/-- Exception-aware `prepare_data`, refining the total model: same guard,
downsampling, conversions and store effect, but no `try` surrounds the
body, so a `TypeError` raised by the datetime step propagates out of the
preparation as `.error`. -/
def prepare_dataE (store : Option DataFrame) (sel : List String) :
    Except String (Option (DataFrame × String) × Option DataFrame) :=
  match store with
  | none => Except.ok (none, none)
  | some df =>
    if df.isEmptyDf then Except.ok (none, some df)
    else if df.nrows > MAX_POINTS then
      match convertXE (downsampleDf df (df.nrows / MAX_POINTS)) with
      | .ok x =>
        Except.ok (some (convertNums x sel, xcolOf (downsampleDf df (df.nrows / MAX_POINTS))),
                   some df)
      | .error e => Except.error e
    else
      match convertXE df with
      | .ok x => Except.ok (some (convertNums x sel, xcolOf df), some (convertNums x sel))
      | .error e => Except.error e

theorem takeEveryAux_get {α : Type} (n : Nat) (hn : 1 ≤ n) :
    ∀ (l : List α) (k j : Nat), (takeEveryAux n k l).get? j = l.get? (k + j * n) := by
  intro l
  induction l with
  | nil => intro k j; cases k <;> rfl
  | cons a as ih =>
    intro k j
    cases k with
    | zero =>
      cases j with
      | zero => simp [takeEveryAux]
      | succ j2 =>
        have h1 : (takeEveryAux n 0 (a :: as)).get? (j2 + 1) =
            (takeEveryAux n (n - 1) as).get? j2 := rfl
        rw [h1, ih (n - 1) j2]
        have h2 : 0 + (j2 + 1) * n = (n - 1 + j2 * n) + 1 := by
          rw [Nat.succ_mul]
          omega
        rw [h2, List.get?_cons_succ]
    | succ k2 =>
      have h1 : (takeEveryAux n (k2 + 1) (a :: as)).get? j =
          (takeEveryAux n k2 as).get? j := rfl
      rw [h1, ih k2 j]
      have h2 : k2 + 1 + j * n = (k2 + j * n) + 1 := by omega
      rw [h2, List.get?_cons_succ]

/-- Element `j` of the stride-`n` subsample is element `j * n` of the
original list: exactly the rows at indices `0, n, 2n, ...` are kept, in
order, the first always among them. -/
theorem takeEvery_get {α : Type} (n : Nat) (hn : 1 ≤ n) (l : List α) (j : Nat) :
    (takeEvery n l).get? j = l.get? (j * n) := by
  have h := takeEveryAux_get n hn l 0 j
  rwa [Nat.zero_add] at h

theorem takeEvery_one {α : Type} (l : List α) : takeEvery 1 l = l := by
  rw [takeEvery]
  induction l with
  | nil => rfl
  | cons a as ih =>
    show a :: takeEveryAux 1 0 as = a :: as
    rw [ih]

theorem getCol_downsampleDf (df : DataFrame) (n : Nat) (c : String) :
    getCol (downsampleDf df n) c = (df.getCol c).map (takeEvery n) := by
  obtain ⟨l⟩ := df
  induction l with
  | nil => rfl
  | cons p rest ih =>
    obtain ⟨nm, v⟩ := p
    by_cases h : nm = c
    · rw [downsampleDf, List.map_cons, getCol_cons, if_pos h, getCol_cons, if_pos h]
      rfl
    · rw [downsampleDf, List.map_cons, getCol_cons, if_neg h, getCol_cons, if_neg h]
      exact ih

theorem downsampleDf_cols_ne_nil (df : DataFrame) (n : Nat) (h : df.cols ≠ []) :
    (downsampleDf df n).cols ≠ [] := by
  obtain ⟨l⟩ := df
  cases l with
  | nil => exact absurd rfl h
  | cons p rest => simp [downsampleDf]

theorem nrows_cons (nm : String) (v : List Cell) (rest : List (String × List Cell)) :
    nrows ⟨(nm, v) :: rest⟩ = v.length := rfl

theorem nrows_setCol (df : DataFrame) (c : String) (cs : List Cell) (h : df.cols ≠ [])
    (hlen : ∀ v, df.getCol c = some v → cs.length = v.length) :
    (setCol df c cs).nrows = df.nrows := by
  obtain ⟨l⟩ := df
  cases l with
  | nil => exact absurd rfl h
  | cons p rest =>
    obtain ⟨nm, v⟩ := p
    by_cases hn : nm = c
    · have hv : getCol ⟨(nm, v) :: rest⟩ c = some v := by
        rw [getCol_cons, if_pos hn]
      rw [setCol, setColAux, if_pos hn, nrows_cons, nrows_cons, hlen v hv]
    · rw [setCol, setColAux, if_neg hn, nrows_cons, nrows_cons]

theorem nrows_setNumCol (df : DataFrame) (c : String) (h : df.cols ≠ []) :
    (setNumCol df c).nrows = df.nrows := by
  rw [setNumCol]
  cases hg : df.getCol c with
  | none =>
    refine nrows_setCol df c _ h ?_
    intro v hv
    rw [hg] at hv
    exact absurd hv (by simp)
  | some cs =>
    refine nrows_setCol df c _ h ?_
    intro v hv
    rw [hg] at hv
    cases hv
    rw [List.length_map]

theorem setNumCol_cols_ne_nil (df : DataFrame) (c : String) :
    (setNumCol df c).cols ≠ [] := by
  rw [setNumCol]
  cases hg : df.getCol c <;> exact setCol_cols_ne_nil _ _ _

/-- The coerced cells a numeric conversion leaves in the column: cell-wise
coercion of an existing column, an all-null column for an absent one. -/
def numTargetCells (o : Option (List Cell)) (n : Nat) : List Cell :=
  match o with
  | some cs => cs.map toNumericCell
  | none => List.replicate n (Cell.num none)

theorem toNumericCell_idem (cl : Cell) :
    toNumericCell (toNumericCell cl) = toNumericCell cl := by
  cases cl <;> rfl

theorem numTargetCells_idem (o : Option (List Cell)) (n m : Nat) :
    numTargetCells (some (numTargetCells o n)) m = numTargetCells o n := by
  cases o with
  | none =>
    show (List.replicate n (Cell.num none)).map toNumericCell = _
    rw [List.map_replicate]
    rfl
  | some cs =>
    show (cs.map toNumericCell).map toNumericCell = cs.map toNumericCell
    rw [List.map_map]
    refine List.map_congr_left ?_
    intro a _
    exact toNumericCell_idem a

theorem getCol_setNumCol_self (df : DataFrame) (c : String) :
    getCol (setNumCol df c) c = some (numTargetCells (df.getCol c) df.nrows) := by
  rw [setNumCol]
  cases hg : df.getCol c with
  | none => rw [getCol_setCol_self, numTargetCells]
  | some cs => rw [getCol_setCol_self, numTargetCells]

theorem getCol_setNumCol_ne (df : DataFrame) (c c2 : String) (h : c2 ≠ c) :
    getCol (setNumCol df c) c2 = df.getCol c2 := by
  rw [setNumCol]
  cases hg : df.getCol c with
  | none => exact getCol_setCol_ne _ _ _ _ h
  | some cs => exact getCol_setCol_ne _ _ _ _ h

theorem convertNums_cols_ne_nil (sel : List String) (df : DataFrame) (h : df.cols ≠ []) :
    (convertNums df sel).cols ≠ [] := by
  induction sel generalizing df with
  | nil => exact h
  | cons c0 rest ih => exact ih (setNumCol df c0) (setNumCol_cols_ne_nil df c0)

theorem nrows_convertNums (sel : List String) (df : DataFrame) (h : df.cols ≠ []) :
    (convertNums df sel).nrows = df.nrows := by
  induction sel generalizing df with
  | nil => rfl
  | cons c0 rest ih =>
    show (convertNums (setNumCol df c0) rest).nrows = df.nrows
    rw [ih (setNumCol df c0) (setNumCol_cols_ne_nil df c0), nrows_setNumCol df c0 h]

/-- Net effect of the numeric conversion loop on each column: every
selected column holds its cell-wise coercion (or a fresh all-null column
when it was absent), every other column is untouched. -/
theorem getCol_convertNums (sel : List String) (df : DataFrame) (c : String)
    (h : df.cols ≠ []) :
    getCol (convertNums df sel) c =
      if c ∈ sel then some (numTargetCells (df.getCol c) df.nrows)
      else df.getCol c := by
  induction sel generalizing df with
  | nil => simp [convertNums]
  | cons c0 rest ih =>
    have hstep : convertNums df (c0 :: rest) = convertNums (setNumCol df c0) rest := rfl
    rw [hstep, ih (setNumCol df c0) (setNumCol_cols_ne_nil df c0)]
    by_cases hc : c = c0
    · subst hc
      by_cases hr : c ∈ rest
      · rw [if_pos hr, if_pos (List.mem_cons_self c rest), getCol_setNumCol_self,
            numTargetCells_idem]
      · rw [if_neg hr, if_pos (List.mem_cons_self c rest), getCol_setNumCol_self]
    · rw [getCol_setNumCol_ne df c0 c hc, nrows_setNumCol df c0 h]
      by_cases hr : c ∈ rest
      · rw [if_pos hr, if_pos (List.mem_cons_of_mem c0 hr)]
      · rw [if_neg hr, if_neg (by simp [List.mem_cons, hc, hr])]

theorem xcolOf_of_hasDT (d : DataFrame) (h : d.hasCol "Date/Time" = true) :
    xcolOf d = "Date/Time" := by
  rw [xcolOf, if_pos h]

theorem xcolOf_of_synth (d : DataFrame) (h1 : d.hasCol "Date/Time" = false)
    (h2 : d.hasCol "Date" = true) (h3 : d.hasCol "Time" = true) :
    xcolOf d = "Date/Time" := by
  rw [xcolOf, h1, h2, h3]
  rfl

theorem xcolOf_fallback (d : DataFrame) (h1 : d.hasCol "Date/Time" = false)
    (h2 : (d.hasCol "Date" && d.hasCol "Time") = false) :
    xcolOf d = d.firstColName := by
  rw [xcolOf, h1, h2]
  rfl

theorem firstColName_ne_dt (d : DataFrame) (h1 : d.hasCol "Date/Time" = false) :
    d.firstColName ≠ "Date/Time" := by
  intro heq
  obtain ⟨l⟩ := d
  cases l with
  | nil => exact absurd heq (by simp [firstColName])
  | cons p rest =>
    have := hasCol_firstColName ⟨p :: rest⟩ (by simp)
    rw [heq] at this
    rw [this] at h1
    cases h1

/-- In the fallback case (no time columns detected) the datetime step
leaves the frame entirely unchanged. -/
theorem convertX_fallback (d : DataFrame) (h1 : d.hasCol "Date/Time" = false)
    (h2 : (d.hasCol "Date" && d.hasCol "Time") = false) :
    convertX d = d := by
  rw [convertX, if_neg]
  rw [xcolOf_fallback d h1 h2]
  exact firstColName_ne_dt d h1

theorem getCol_convertX_strict (d : DataFrame) (h : d.hasCol "Date/Time" = true) :
    getCol (convertX d) "Date/Time" =
      some ((d.getColD "Date/Time").map (fun cl => Cell.time (cellToDatetimeStrict cl))) := by
  rw [convertX, if_pos (xcolOf_of_hasDT d h), if_pos h, getCol_setCol_self]

theorem getCol_convertX_synth (d : DataFrame) (h1 : d.hasCol "Date/Time" = false)
    (h2 : d.hasCol "Date" = true) (h3 : d.hasCol "Time" = true) :
    getCol (convertX d) "Date/Time" = some (synthCol d) := by
  rw [convertX, if_pos (xcolOf_of_synth d h1 h2 h3), h1]
  show getCol (d.setCol "Date/Time" (synthCol d)) "Date/Time" = some (synthCol d)
  exact getCol_setCol_self d "Date/Time" (synthCol d)

theorem getCol_convertX_ne (d : DataFrame) (c : String) (h : c ≠ "Date/Time") :
    getCol (convertX d) c = d.getCol c := by
  rw [convertX]
  by_cases hx : xcolOf d = "Date/Time"
  · rw [if_pos hx]
    by_cases hdt : d.hasCol "Date/Time"
    · rw [if_pos hdt]
      exact getCol_setCol_ne _ _ _ _ h
    · rw [if_neg hdt]
      exact getCol_setCol_ne _ _ _ _ h
  · rw [if_neg hx]

theorem convertX_cols_ne_nil (d : DataFrame) (h : d.cols ≠ []) :
    (convertX d).cols ≠ [] := by
  rw [convertX]
  by_cases hx : xcolOf d = "Date/Time"
  · rw [if_pos hx]
    by_cases hdt : d.hasCol "Date/Time"
    · rw [if_pos hdt]
      exact setCol_cols_ne_nil _ _ _
    · rw [if_neg hdt]
      exact setCol_cols_ne_nil _ _ _
  · rw [if_neg hx]
    exact h

theorem nrows_convertX (d : DataFrame) (h : d.cols ≠ []) :
    (convertX d).nrows = d.nrows := by
  rw [convertX]
  by_cases hx : xcolOf d = "Date/Time"
  · rw [if_pos hx]
    by_cases hdt : d.hasCol "Date/Time"
    · rw [if_pos hdt]
      refine nrows_setCol d _ _ h ?_
      intro v hv
      rw [getColD, hv]
      simp
    · rw [if_neg hdt]
      refine nrows_setCol d _ _ h ?_
      intro v hv
      rw [hasCol, hv] at hdt
      exact absurd rfl hdt
  · rw [if_neg hx]

theorem isEmptyDf_false_cols_ne_nil (df : DataFrame) (h : df.isEmptyDf = false) :
    df.cols ≠ [] := by
  intro hc
  rw [isEmptyDf, hc] at h
  cases h

/-- Example frame with columns `Date`, `Time`, `Power1` and the single row
`("01/02/2024", "03:04:05", "5")`. -/
def dfDateTimeRow : DataFrame :=
  ⟨[("Date", [Cell.str "01/02/2024"]), ("Time", [Cell.str "03:04:05"]),
    ("Power1", [Cell.str "5"])]⟩

/-- Example frame with a single column of 1500 textual rows. -/
def dfRows1500 : DataFrame :=
  ⟨[("A", List.replicate 1500 (Cell.str "1"))]⟩

/-- Example frame with a single column of 1001 textual rows. -/
def dfRows1001 : DataFrame :=
  ⟨[("A", List.replicate 1001 (Cell.str "0"))]⟩

/-- Frame as `pd.read_csv` ingests `"Date,Time,P"` over the row
`01/02/2024,30405,5`: the all-digit `Time` column is dtype-inferred as
int64, so its cell is numeric, not textual. -/
def dfNumTime : DataFrame :=
  ⟨[("Date", [Cell.str "01/02/2024"]), ("Time", [Cell.num (some 30405)]),
    ("P", [Cell.str "5"])]⟩

/-- C4: a name is classified as Power iff its lowercase form contains both
"chiller" and "power"; as SupplyTemp iff it contains "supply" or "chws"
and also "temp" or "t"; as ReturnTemp iff it contains "return", "chwr" or
"ret" and also "temp" or "t"; and on the columns
`["Chiller1_Power", "CHWS_Temp", "Timestamp"]` the Power set is exactly
`{"Chiller1_Power"}` and the SupplyTemp set exactly `{"CHWS_Temp"}`. -/
theorem classify_rules (cols : List String) (name : String) :
    (name ∈ power_cols cols ↔
      name ∈ cols ∧ (lowerContains name "chiller" = true ∧ lowerContains name "power" = true))
  ∧ (name ∈ supply_cols cols ↔
      name ∈ cols ∧ ((lowerContains name "supply" = true ∨ lowerContains name "chws" = true)
        ∧ (lowerContains name "temp" = true ∨ lowerContains name "t" = true)))
  ∧ (name ∈ return_cols cols ↔
      name ∈ cols ∧ ((lowerContains name "return" = true ∨ lowerContains name "chwr" = true
          ∨ lowerContains name "ret" = true)
        ∧ (lowerContains name "temp" = true ∨ lowerContains name "t" = true)))
  ∧ power_cols ["Chiller1_Power", "CHWS_Temp", "Timestamp"] = ["Chiller1_Power"]
  ∧ supply_cols ["Chiller1_Power", "CHWS_Temp", "Timestamp"] = ["CHWS_Temp"]
  ∧ return_cols ["Chiller1_Power", "CHWS_Temp", "Timestamp"] = [] := by
  refine ⟨?_, ?_, ?_, by decide, by decide, by decide⟩
  · simp [power_cols, List.mem_filter]
  · simp [supply_cols, List.mem_filter, and_assoc]
  · simp [return_cols, List.mem_filter, and_assoc, or_assoc]

/-- C10: the three classifier outputs depend only on the set of input
names (lists with the same members classify the same names), and each
classifier is idempotent. -/
theorem classify_set_invariant (cols cols2 : List String)
    (h : ∀ a, a ∈ cols ↔ a ∈ cols2) :
    (∀ a, a ∈ power_cols cols ↔ a ∈ power_cols cols2)
  ∧ (∀ a, a ∈ supply_cols cols ↔ a ∈ supply_cols cols2)
  ∧ (∀ a, a ∈ return_cols cols ↔ a ∈ return_cols cols2)
  ∧ power_cols (power_cols cols) = power_cols cols
  ∧ supply_cols (supply_cols cols) = supply_cols cols
  ∧ return_cols (return_cols cols) = return_cols cols := by
  refine ⟨?_, ?_, ?_, ?_, ?_, ?_⟩
  · intro a
    simp [power_cols, List.mem_filter, h a]
  · intro a
    simp [supply_cols, List.mem_filter, h a]
  · intro a
    simp [return_cols, List.mem_filter, h a]
  · exact List.filter_eq_self.mpr (fun a ha => (List.mem_filter.mp ha).2)
  · exact List.filter_eq_self.mpr (fun a ha => (List.mem_filter.mp ha).2)
  · exact List.filter_eq_self.mpr (fun a ha => (List.mem_filter.mp ha).2)

/-- Witness for C10 at the concrete reordered lists
`["Chiller Power", "CHWS_T"]` and `["CHWS_T", "Chiller Power"]`. -/
theorem classify_set_invariant_witness :
    power_cols (power_cols ["Chiller Power", "CHWS_T"]) =
      power_cols ["Chiller Power", "CHWS_T"] :=
  (classify_set_invariant ["Chiller Power", "CHWS_T"] ["CHWS_T", "Chiller Power"]
    (by intro a; simp [List.mem_cons]; tauto)).2.2.2.1

/-- C8: chart preparation yields no result when the store holds no
dataset, or when the held dataset has zero rows; the reset branch of the
upload callback empties the store, and preparation on the store a reset
leaves behind again yields no result. -/
theorem prepare_none_and_reset (df : DataFrame) (sel sel2 : List String)
    (c : Option Payload) (f : String) (store : Option DataFrame) :
    prepare_data none sel = (none, none)
  ∧ (df.nrows = 0 → (prepare_data (some df) sel).1 = none)
  ∧ (handle_file_upload true c f store).2 = none
  ∧ prepare_data (handle_file_upload true c f store).2 sel2 = (none, none) := by
  refine ⟨rfl, ?_, rfl, rfl⟩
  intro h0
  have he : df.isEmptyDf = true := by
    rw [isEmptyDf, h0]
    simp
  simp [prepare_data, he]

/-- Witness for C8: a zero-row dataset prepares to no result. -/
theorem prepare_none_and_reset_witness :
    (prepare_data (some ⟨[("A", [])]⟩) []).1 = none :=
  (prepare_none_and_reset ⟨[("A", [])]⟩ [] [] none "x" none).2.1 rfl

/-- C9: an upload whose filename does not end in `.csv` is answered with
the rejection message and leaves the store exactly as it was (the
hypothesis `b64Ok` records that the data-URI payload splits and
base64-decodes, which runs before the format check). -/
theorem upload_reject_non_csv (p : Payload) (f : String) (store : Option DataFrame)
    (hb : p.b64Ok = true) (hf : strEndsWith f ".csv" = false) :
    process_file_upload (some p) f store = (.ok .rejectedFormat, store) := by
  simp [process_file_upload, hb, hf]

/-- Witness for C9: uploading "data.txt" is rejected, store untouched. -/
theorem upload_reject_non_csv_witness :
    process_file_upload (some ⟨true, Except.error "e"⟩) "data.txt" none =
      (.ok .rejectedFormat, none) :=
  upload_reject_non_csv ⟨true, Except.error "e"⟩ "data.txt" none rfl (by decide)

/-- C2: when the payload of a `.csv` upload fails UTF-8 decoding or CSV
parsing inside the `try` block, the exception is caught there, the
callback returns the generic error message together with `str(e)`, and
the store keeps its prior content. -/
theorem upload_parse_failure_caught (p : Payload) (f : String)
    (store : Option DataFrame) (e : String)
    (hb : p.b64Ok = true) (hf : strEndsWith f ".csv" = true)
    (hp : p.parsed = Except.error e) :
    process_file_upload (some p) f store = (.ok (.parseError e), store) := by
  simp [process_file_upload, hb, hf, hp]

/-- Witness for C2: a failing parse of an uploaded `a.csv` is reported
with its error text over an empty store. -/
theorem upload_parse_failure_caught_witness :
    process_file_upload (some ⟨true, Except.error "boom"⟩) "a.csv" none =
      (.ok (.parseError "boom"), none) :=
  upload_parse_failure_caught ⟨true, Except.error "boom"⟩ "a.csv" none "boom"
    rfl (by decide) rfl

/-- C5: the x-axis is the literal `Date/Time` column when present; else,
when both `Date` and `Time` exist, the name `Date/Time` is used and its
values are synthesized by concatenating the two cells with a single space
and parsing generically; else the first column is used and the datetime
step changes nothing; on the concrete `["Date", "Time", "Power1"]` row
the synthesized value `"01/02/2024 03:04:05"` parses to the valid
timestamp for Jan 2 2024, 03:04:05. -/
theorem xaxis_selection (d : DataFrame) :
    (d.hasCol "Date/Time" = true → xcolOf d = "Date/Time")
  ∧ (d.hasCol "Date/Time" = false → d.hasCol "Date" = true → d.hasCol "Time" = true →
      xcolOf d = "Date/Time" ∧
      getCol (convertX d) "Date/Time" =
        some (List.zipWith
          (fun a b => Cell.time (parseTimestampGeneric (cellStr a ++ " " ++ cellStr b)))
          (d.getColD "Date") (d.getColD "Time")))
  ∧ (d.hasCol "Date/Time" = false → (d.hasCol "Date" && d.hasCol "Time") = false →
      xcolOf d = d.firstColName ∧ convertX d = d)
  ∧ (prepare_data (some dfDateTimeRow) []).1.map (fun p => (getCol p.1 "Date/Time", p.2)) =
      some (some [Cell.time (some (2024, 1, 2, 3, 4, 5))], "Date/Time") := by
  refine ⟨xcolOf_of_hasDT d, ?_, ?_, by decide⟩
  · intro h1 h2 h3
    exact ⟨xcolOf_of_synth d h1 h2 h3, getCol_convertX_synth d h1 h2 h3⟩
  · intro h1 h2
    exact ⟨xcolOf_fallback d h1 h2, convertX_fallback d h1 h2⟩

/-- Witness for C5 at the concrete `Date`/`Time` frame. -/
theorem xaxis_selection_witness : xcolOf dfDateTimeRow = "Date/Time" :=
  ((xaxis_selection dfDateTimeRow).2.1 rfl rfl rfl).1

/-- C6: when the row count exceeds 1000, preparation works on the
stride-subsampled frame with stride `N = nrows / 1000`; each column keeps
exactly the cells at indices `0, N, 2N, ...` (element `j` of the result is
element `j * N` of the original, so the first row is always retained and
the relative order of the retained rows is preserved). -/
theorem downsample_stride (df : DataFrame) (sel : List String) (c : String)
    (cs : List Cell) (j : Nat)
    (hgt : df.nrows > MAX_POINTS) (hne : df.isEmptyDf = false)
    (hc : df.getCol c = some cs) :
    (prepare_data (some df) sel).1 =
      some (convertNums (convertX (downsampleDf df (df.nrows / MAX_POINTS))) sel,
            xcolOf (downsampleDf df (df.nrows / MAX_POINTS)))
  ∧ getCol (downsampleDf df (df.nrows / MAX_POINTS)) c =
      some (takeEvery (df.nrows / MAX_POINTS) cs)
  ∧ (takeEvery (df.nrows / MAX_POINTS) cs).get? j = cs.get? (j * (df.nrows / MAX_POINTS))
  ∧ (takeEvery (df.nrows / MAX_POINTS) cs).get? 0 = cs.get? 0 := by
  have hstep : 1 ≤ df.nrows / MAX_POINTS := by
    refine (Nat.one_le_div_iff ?_).mpr (le_of_lt hgt)
    norm_num [MAX_POINTS]
  refine ⟨?_, ?_, takeEvery_get _ hstep cs j, ?_⟩
  · simp [prepare_data, hne, hgt]
  · rw [getCol_downsampleDf, hc]
    rfl
  · have h0 := takeEvery_get _ hstep cs 0
    simpa using h0

set_option maxRecDepth 40000 in
/-- Witness for C6 on a concrete 1001-row single-column frame. -/
theorem downsample_stride_witness :
    (takeEvery (dfRows1001.nrows / MAX_POINTS) (List.replicate 1001 (Cell.str "0"))).get? 5 =
      (List.replicate 1001 (Cell.str "0")).get? (5 * (dfRows1001.nrows / MAX_POINTS)) :=
  (downsample_stride dfRows1001 [] "A" (List.replicate 1001 (Cell.str "0")) 5
    (by decide) (by decide) rfl).2.2.1

set_option maxRecDepth 40000 in
/-- C1 evaluated on the code: for a 1500-row dataset the stride is
`1500 / 1000 = 1`, so `prepare_data` returns all 1500 rows — strictly
more than the stated 1000-row maximum. -/
theorem prepare_keeps_1500_rows :
    (prepare_data (some dfRows1500) []).1.map (fun p => p.1.nrows) = some 1500
  ∧ MAX_POINTS < 1500 := by
  constructor
  · have hne : dfRows1500.isEmptyDf = false := rfl
    have hgt : dfRows1500.nrows > MAX_POINTS := by decide
    have hq : dfRows1500.nrows / MAX_POINTS = 1 := by decide
    rw [show (prepare_data (some dfRows1500) []).1 =
        some (convertNums (convertX (downsampleDf dfRows1500 (dfRows1500.nrows / MAX_POINTS))) [],
              xcolOf (downsampleDf dfRows1500 (dfRows1500.nrows / MAX_POINTS)))
      from by simp [prepare_data, hne, hgt], hq]
    have hfb : convertX (downsampleDf dfRows1500 1) = downsampleDf dfRows1500 1 :=
      convertX_fallback _ rfl rfl
    rw [show convertNums (convertX (downsampleDf dfRows1500 1)) [] =
        convertX (downsampleDf dfRows1500 1) from rfl, hfb]
    show some (nrows ⟨[("A", takeEvery 1 (List.replicate 1500 (Cell.str "1")))]⟩) = some 1500
    rw [nrows_cons, takeEvery_one, List.length_replicate]
  · norm_num [MAX_POINTS]

/-- C3: when the stored dataset has at most 1000 rows the preparation
works on the stored frame itself, so the store afterwards holds exactly
the returned frame, whose `Date/Time` column (existing or synthesized)
carries the parsed timestamps and whose selected columns carry their
numeric coercions; only when the row count exceeds 1000 does a copy leave
the stored frame unchanged. -/
theorem prepare_inplace_mutation (df : DataFrame) (sel : List String)
    (hne : df.isEmptyDf = false) :
    (df.nrows ≤ MAX_POINTS →
      prepare_data (some df) sel =
        (some (convertNums (convertX df) sel, xcolOf df),
         some (convertNums (convertX df) sel))
      ∧ (df.hasCol "Date/Time" = true → "Date/Time" ∉ sel →
          getCol (convertNums (convertX df) sel) "Date/Time" =
            some ((df.getColD "Date/Time").map (fun cl => Cell.time (cellToDatetimeStrict cl))))
      ∧ (df.hasCol "Date/Time" = false → df.hasCol "Date" = true → df.hasCol "Time" = true →
          "Date/Time" ∉ sel →
          getCol (convertNums (convertX df) sel) "Date/Time" = some (synthCol df))
      ∧ (∀ c, c ∈ sel → ∀ cs, getCol (convertX df) c = some cs →
          getCol (convertNums (convertX df) sel) c = some (cs.map toNumericCell)))
  ∧ (df.nrows > MAX_POINTS → (prepare_data (some df) sel).2 = some df) := by
  have hcols : df.cols ≠ [] := isEmptyDf_false_cols_ne_nil df hne
  have hXcols : (convertX df).cols ≠ [] := convertX_cols_ne_nil df hcols
  constructor
  · intro hle
    have hngt : ¬ df.nrows > MAX_POINTS := Nat.not_lt.mpr hle
    refine ⟨by simp [prepare_data, hne, hngt], ?_, ?_, ?_⟩
    · intro hdt hnot
      rw [getCol_convertNums sel _ _ hXcols, if_neg hnot, getCol_convertX_strict df hdt]
    · intro h1 h2 h3 hnot
      rw [getCol_convertNums sel _ _ hXcols, if_neg hnot, getCol_convertX_synth df h1 h2 h3]
    · intro c hc cs hcs
      rw [getCol_convertNums sel _ _ hXcols, if_pos hc, hcs]
      rfl
  · intro hgt
    simp [prepare_data, hne, hgt]

set_option maxRecDepth 40000 in
/-- Witness for C3: the over-1000-row frame is prepared from a copy, the
store keeping the original. -/
theorem prepare_inplace_mutation_witness :
    (prepare_data (some dfRows1500) []).2 = some dfRows1500 :=
  (prepare_inplace_mutation dfRows1500 [] rfl).2 (by decide)

theorem synthCellsE_ok (das tis : List Cell)
    (h : ∀ p ∈ List.zip das tis, cellIsStr p.1 = true ∧ cellIsStr p.2 = true) :
    synthCellsE das tis =
      Except.ok (List.zipWith
        (fun a b => Cell.time (parseTimestampGeneric (cellStr a ++ " " ++ cellStr b)))
        das tis) := by
  induction das generalizing tis with
  | nil => cases tis <;> rfl
  | cons a as ih =>
    cases tis with
    | nil => rfl
    | cons b bs =>
      have hhead := h (a, b) (by rw [List.zip_cons_cons]; exact List.mem_cons_self _ _)
      obtain ⟨s1, rfl⟩ : ∃ s, a = Cell.str s := by
        cases a with
        | str s => exact ⟨s, rfl⟩
        | time t => cases hhead.1
        | num v => cases hhead.1
      obtain ⟨s2, rfl⟩ : ∃ s, b = Cell.str s := by
        cases b with
        | str s => exact ⟨s, rfl⟩
        | time t => cases hhead.2
        | num v => cases hhead.2
      have htail : ∀ p ∈ List.zip as bs, cellIsStr p.1 = true ∧ cellIsStr p.2 = true := by
        intro p hp
        exact h p (by rw [List.zip_cons_cons]; exact List.mem_cons_of_mem _ hp)
      show (match synthCellsE as bs with
        | .ok rest => Except.ok (Cell.time (parseTimestampGeneric (s1 ++ " " ++ s2)) :: rest)
        | .error e => Except.error e) = _
      rw [ih bs htail]
      rfl

theorem synthCellsE_error (das : List Cell) :
    ∀ (tis : List Cell) (r : String), synthCellsE das tis = Except.error r →
      ∃ p ∈ List.zip das tis, cellIsStr p.1 = false ∨ cellIsStr p.2 = false := by
  induction das with
  | nil =>
    intro tis r h
    cases tis <;> cases h
  | cons a as ih =>
    intro tis r h
    cases tis with
    | nil => cases h
    | cons b bs =>
      cases ha : cellStrE a with
      | error e =>
        refine ⟨(a, b), by rw [List.zip_cons_cons]; exact List.mem_cons_self _ _, Or.inl ?_⟩
        cases a with
        | str s => simp [cellStrE] at ha
        | time t => rfl
        | num v => rfl
      | ok s1 =>
        cases hb : cellStrE b with
        | error e =>
          refine ⟨(a, b), by rw [List.zip_cons_cons]; exact List.mem_cons_self _ _, Or.inr ?_⟩
          cases b with
          | str s => simp [cellStrE] at hb
          | time t => rfl
          | num v => rfl
        | ok s2 =>
          simp only [synthCellsE, ha, hb] at h
          cases hrec : synthCellsE as bs with
          | ok rest => rw [hrec] at h; cases h
          | error e =>
            obtain ⟨p, hp, hor⟩ := ih bs e hrec
            exact ⟨p, by rw [List.zip_cons_cons]; exact List.mem_cons_of_mem _ hp, hor⟩

/-- Whenever the synthesized branch is not taken, or all its `Date` and
`Time` cells are textual, the exception-aware datetime step agrees with
the total one. -/
theorem convertXE_agree (d : DataFrame)
    (h : d.hasCol "Date/Time" = true ∨ xcolOf d ≠ "Date/Time" ∨
         ∀ p ∈ List.zip (d.getColD "Date") (d.getColD "Time"),
           cellIsStr p.1 = true ∧ cellIsStr p.2 = true) :
    convertXE d = Except.ok (convertX d) := by
  by_cases hx : xcolOf d = "Date/Time"
  · by_cases hdt : d.hasCol "Date/Time" = true
    · rw [convertXE, if_pos hx, if_pos hdt, convertX, if_pos hx, if_pos hdt]
    · have htext : ∀ p ∈ List.zip (d.getColD "Date") (d.getColD "Time"),
          cellIsStr p.1 = true ∧ cellIsStr p.2 = true := by
        rcases h with h1 | h2 | h3
        · exact absurd h1 hdt
        · exact absurd hx h2
        · exact h3
      rw [convertXE, if_pos hx, if_neg hdt, convertX, if_pos hx, if_neg hdt,
          synthCellsE_ok _ _ htext]
      rfl
  · rw [convertXE, if_neg hx, convertX, if_neg hx]

/-- The exception-aware datetime step raises only in the synthesized
branch, and only because some `Date` or `Time` cell is not textual. -/
theorem convertXE_error (d : DataFrame) (r : String)
    (h : convertXE d = Except.error r) :
    d.hasCol "Date/Time" = false ∧ (d.hasCol "Date" && d.hasCol "Time") = true ∧
    ∃ p ∈ List.zip (d.getColD "Date") (d.getColD "Time"),
      cellIsStr p.1 = false ∨ cellIsStr p.2 = false := by
  by_cases hx : xcolOf d = "Date/Time"
  · by_cases hdt : d.hasCol "Date/Time" = true
    · rw [convertXE, if_pos hx, if_pos hdt] at h
      cases h
    · have hdt2 : d.hasCol "Date/Time" = false := by
        revert hdt
        cases d.hasCol "Date/Time" <;> simp
      have hpair : (d.hasCol "Date" && d.hasCol "Time") = true := by
        by_contra hpf
        have hpf2 : (d.hasCol "Date" && d.hasCol "Time") = false := by
          revert hpf
          cases (d.hasCol "Date" && d.hasCol "Time") <;> simp
        rw [xcolOf_fallback d hdt2 hpf2] at hx
        exact absurd hx (firstColName_ne_dt d hdt2)
      refine ⟨hdt2, hpair, ?_⟩
      rw [convertXE, if_pos hx, if_neg hdt] at h
      cases hs : synthCellsE (d.getColD "Date") (d.getColD "Time") with
      | ok cs => rw [hs] at h; cases h
      | error e => exact synthCellsE_error _ _ e hs
  · rw [convertXE, if_neg hx] at h
    cases h

/-- Counterexample to C7 as stated: with a `Time` column that
`pd.read_csv` dtype-inferred as numeric, `prepare_data` raises a
`TypeError` at `df['Date'] + ' ' + df['Time']` instead of returning. -/
theorem prepare_raises_on_numeric_time :
    prepare_dataE (some dfNumTime) [] = Except.error "TypeError" := rfl

/-- C7 (amended): preparation raises only when the x-axis must be
synthesized from `Date` and `Time` and one of their cells is not textual
(numeric dtype), where the concatenation's `TypeError` propagates; in
every other case it returns the frame of the total coerce model: strict
parsing of a literal `Date/Time` column, generic parsing of the
space-joined synthesized values, unparseable cells becoming null markers
with the row retained, every selected column numeric-coerced cell-wise
(a fresh all-null column when absent), and no conversion dropping a
row. -/
theorem prepare_raises_only_on_nontextual_synth
    (df w d : DataFrame) (sel : List String) (c : String)
    (hne : df.isEmptyDf = false)
    (hw : w = if df.nrows > MAX_POINTS then downsampleDf df (df.nrows / MAX_POINTS) else df)
    (hd : d = convertNums (convertX w) sel) :
    ((∃ r, prepare_dataE (some df) sel = Except.error r) →
      w.hasCol "Date/Time" = false ∧ (w.hasCol "Date" && w.hasCol "Time") = true ∧
      ∃ p ∈ List.zip (w.getColD "Date") (w.getColD "Time"),
        cellIsStr p.1 = false ∨ cellIsStr p.2 = false)
  ∧ ((w.hasCol "Date/Time" = true ∨ xcolOf w ≠ "Date/Time" ∨
      ∀ p ∈ List.zip (w.getColD "Date") (w.getColD "Time"),
        cellIsStr p.1 = true ∧ cellIsStr p.2 = true) →
      prepare_dataE (some df) sel = Except.ok (prepare_data (some df) sel))
  ∧ ((prepare_data (some df) sel).1 = some (d, xcolOf w))
  ∧ (w.hasCol "Date/Time" = true → "Date/Time" ∉ sel →
      getCol d "Date/Time" =
        some ((w.getColD "Date/Time").map (fun cl => Cell.time (cellToDatetimeStrict cl))))
  ∧ (w.hasCol "Date/Time" = false → w.hasCol "Date" = true → w.hasCol "Time" = true →
      "Date/Time" ∉ sel → getCol d "Date/Time" = some (synthCol w))
  ∧ (∀ cs, c ∈ sel → getCol (convertX w) c = some cs →
      getCol d c = some (cs.map toNumericCell))
  ∧ (c ∈ sel → getCol (convertX w) c = none →
      getCol d c = some (List.replicate w.nrows (Cell.num none)))
  ∧ d.nrows = w.nrows := by
  have hcols : df.cols ≠ [] := isEmptyDf_false_cols_ne_nil df hne
  have hwcols : w.cols ≠ [] := by
    rw [hw]
    by_cases hgt : df.nrows > MAX_POINTS
    · rw [if_pos hgt]
      exact downsampleDf_cols_ne_nil df _ hcols
    · rw [if_neg hgt]
      exact hcols
  have hXcols : (convertX w).cols ≠ [] := convertX_cols_ne_nil w hwcols
  have hXrows : (convertX w).nrows = w.nrows := nrows_convertX w hwcols
  refine ⟨?_, ?_, ?_, ?_, ?_, ?_, ?_, ?_⟩
  · rintro ⟨r, hr⟩
    by_cases hgt : df.nrows > MAX_POINTS
    · rw [if_pos hgt] at hw
      cases hXE : convertXE (downsampleDf df (df.nrows / MAX_POINTS)) with
      | ok x => simp [prepare_dataE, hne, hgt, hXE] at hr
      | error e =>
        rw [← hw] at hXE
        exact convertXE_error _ e hXE
    · rw [if_neg hgt] at hw
      cases hXE : convertXE df with
      | ok x => simp [prepare_dataE, hne, hgt, hXE] at hr
      | error e =>
        rw [← hw] at hXE
        exact convertXE_error _ e hXE
  · intro hcase
    have hXE : convertXE w = Except.ok (convertX w) := convertXE_agree w hcase
    by_cases hgt : df.nrows > MAX_POINTS
    · rw [if_pos hgt] at hw
      have h1 : prepare_data (some df) sel =
          (some (convertNums (convertX w) sel, xcolOf w), some df) := by
        rw [hw]
        simp [prepare_data, hne, hgt]
      have h2 : prepare_dataE (some df) sel =
          (match convertXE w with
           | Except.ok x => Except.ok (some (convertNums x sel, xcolOf w), some df)
           | Except.error e => Except.error e) := by
        rw [hw]
        simp [prepare_dataE, hne, hgt]
      rw [h1, h2, hXE]
    · rw [if_neg hgt] at hw
      have h1 : prepare_data (some df) sel =
          (some (convertNums (convertX w) sel, xcolOf w),
           some (convertNums (convertX w) sel)) := by
        rw [hw]
        simp [prepare_data, hne, hgt]
      have h2 : prepare_dataE (some df) sel =
          (match convertXE w with
           | Except.ok x =>
             Except.ok (some (convertNums x sel, xcolOf w), some (convertNums x sel))
           | Except.error e => Except.error e) := by
        rw [hw]
        simp [prepare_dataE, hne, hgt]
      rw [h1, h2, hXE]
  · rw [hd]
    by_cases hgt : df.nrows > MAX_POINTS
    · rw [if_pos hgt] at hw
      rw [hw]
      simp [prepare_data, hne, hgt]
    · rw [if_neg hgt] at hw
      rw [hw]
      simp [prepare_data, hne, hgt]
  · intro hdt hnot
    rw [hd, getCol_convertNums sel _ _ hXcols, if_neg hnot, getCol_convertX_strict w hdt]
  · intro h1 h2 h3 hnot
    rw [hd, getCol_convertNums sel _ _ hXcols, if_neg hnot, getCol_convertX_synth w h1 h2 h3]
  · intro cs hc hcs
    rw [hd, getCol_convertNums sel _ _ hXcols, if_pos hc, hcs]
    rfl
  · intro hc hnone
    rw [hd, getCol_convertNums sel _ _ hXcols, if_pos hc, hnone, numTargetCells, hXrows]
  · rw [hd, nrows_convertNums sel _ hXcols, hXrows]

/-- Witness for amended C7 at the all-textual `Date`/`Time` frame with
`Power1` selected: preparation returns, agreeing with the total model. -/
theorem prepare_raises_only_on_nontextual_synth_witness :
    prepare_dataE (some dfDateTimeRow) ["Power1"] =
      Except.ok (prepare_data (some dfDateTimeRow) ["Power1"]) :=
  (prepare_raises_only_on_nontextual_synth dfDateTimeRow dfDateTimeRow
    (convertNums (convertX dfDateTimeRow) ["Power1"]) ["Power1"] "Power1"
    rfl rfl rfl).2.1 (Or.inr (Or.inr (by decide)))

end DataTool
